import Mathlib

/-!
Shallow embedding of the S1GNAL.ZERO agent messaging and aggregation pipeline
(the `agents/` Python sources: `score_aggregator_agent.py`, `base/base_agent.py`,
`config/config.py`) together with theorems about the weighted-score
aggregation, zone classification, confidence computation, demo short-circuit,
message handling and transport fallback logic.

Modelling conventions:
* Python floats are modelled as exact rationals (`ℚ`); the arithmetic in the
  source is elementary (+, *, min, max, /) and no property studied here
  depends on binary floating-point rounding.
* Python `round(x, 2)` is modelled as rounding `x * 100` to the nearest
  integer (`roundTo2`); no value reached in the theorems below sits at a
  rounding tie, so the tie-breaking convention is irrelevant.
* Python dicts carrying agent results are modelled by `AgentResult` records of
  optional fields plus a flag recording whether the dict has further keys, so
  that Python dict truthiness (`if bot_result:`) is representable.
* An exception raised by agent-specific processing is modelled by `Except`;
  each `random.randint` draw is modelled as an explicit integer parameter,
  with the draw's bounds appearing as hypotheses where they matter.
-/

/-- Default weight for the bot-detector score
(`config.py`: `SCORE_AGGREGATOR_BOT_WEIGHT`, default `0.40`). -/
def SCORE_AGGREGATOR_BOT_WEIGHT : ℚ := 0.40

/-- Default weight for the trend-analyzer score (`config.py`, default `0.30`). -/
def SCORE_AGGREGATOR_TREND_WEIGHT : ℚ := 0.30

/-- Default weight for the review-validator score (`config.py`, default `0.20`). -/
def SCORE_AGGREGATOR_REVIEW_WEIGHT : ℚ := 0.20

/-- Default weight for the paid-promotion score (`config.py`, default `0.10`). -/
def SCORE_AGGREGATOR_PROMOTION_WEIGHT : ℚ := 0.10

/-- Hardcoded demo value (`config.py`, default `62`). -/
def STANLEY_CUP_BOT_PERCENTAGE : ℤ := 62

/-- Hardcoded demo value (`config.py`, default `34`). -/
def STANLEY_CUP_REALITY_SCORE : ℤ := 34

/-- Hardcoded demo value (`config.py`, default `87`). -/
def BUZZ_STOCK_BOT_PERCENTAGE : ℤ := 87

/-- Hardcoded demo value (`config.py`, default `12`). -/
def BUZZ_STOCK_REALITY_SCORE : ℤ := 12

/-- Hardcoded demo value (`config.py`, default `71`). -/
def PRIME_ENERGY_BOT_PERCENTAGE : ℤ := 71

/-- Hardcoded demo value (`config.py`, default `29`). -/
def PRIME_ENERGY_REALITY_SCORE : ℤ := 29

/-- Demo confidence (`config.py`: `DEMO_CONFIDENCE_SCORE`, default `94.5`). -/
def DEMO_CONFIDENCE_SCORE : ℚ := 94.5

/-- Python `round(x, 2)`: round to two decimal places. -/
def roundTo2 (x : ℚ) : ℚ := ((round (x * 100) : ℤ) : ℚ) / 100

/-- Python `round(x, 1)`: round to one decimal place. -/
def roundTo1 (x : ℚ) : ℚ := ((round (x * 10) : ℤ) : ℚ) / 10

/-- One agent's entry in the aggregator request's `agentResults` mapping: a
Python dict that may or may not carry the `score`, `confidence` and
`data_sources` keys; `hasOtherKeys` records whether the dict carries any
further keys (evidence, status, ...), which matters only for Python dict
truthiness tests such as `if bot_result:`. -/
structure AgentResult where
  score : Option ℚ
  confidence : Option ℚ
  data_sources : Option (List String)
  hasOtherKeys : Bool
  deriving DecidableEq, Repr

/-- Python truthiness of the dict modelled by an `AgentResult`:
an empty dict is falsy, any dict with at least one key is truthy. -/
def dictNonempty (a : AgentResult) : Bool :=
  a.score.isSome || a.confidence.isSome || a.data_sources.isSome || a.hasOtherKeys

/-- The aggregator request's `agentResults` mapping, one optional entry per
signal-agent type (`none` models an absent key). -/
structure AgentResults where
  botDetector : Option AgentResult
  trendAnalyzer : Option AgentResult
  reviewValidator : Option AgentResult
  paidPromotion : Option AgentResult
  deriving DecidableEq, Repr

/-- Score extraction for a single entry, as done per agent type inside
`_extract_agent_scores`: `agent_results.get(key, {})`, then
`result.get('score', 50.0)` when the dict is truthy, else the 50.0 fallback. -/
def entryScore (o : Option AgentResult) : ℚ :=
  match o with
  | none => 50
  | some a => if dictNonempty a then a.score.getD 50 else 50

/-- The per-agent scores dict built by `_extract_agent_scores`
(`score_aggregator_agent.py`); it always carries all four keys. -/
structure AgentScores where
  bot_detector : ℚ
  trend_analyzer : ℚ
  review_validator : ℚ
  paid_promotion : ℚ
  deriving DecidableEq, Repr

/-- `_extract_agent_scores` (`score_aggregator_agent.py`, lines 99-134). -/
def extractAgentScores (rs : AgentResults) : AgentScores :=
  { bot_detector := entryScore rs.botDetector
    trend_analyzer := entryScore rs.trendAnalyzer
    review_validator := entryScore rs.reviewValidator
    paid_promotion := entryScore rs.paidPromotion }

/-- `_calculate_reality_score` (`score_aggregator_agent.py`, lines 136-148):
weighted sum of the four agent scores, clamped to `[0, 100]` by
`max(min(reality_score, 100.0), 0.0)`. -/
def calculateRealityScore (s : AgentScores) : ℚ :=
  max (min (s.bot_detector * SCORE_AGGREGATOR_BOT_WEIGHT +
      s.trend_analyzer * SCORE_AGGREGATOR_TREND_WEIGHT +
      s.review_validator * SCORE_AGGREGATOR_REVIEW_WEIGHT +
      s.paid_promotion * SCORE_AGGREGATOR_PROMOTION_WEIGHT) 100) 0

/-- `_classify_manipulation_level` (`score_aggregator_agent.py`, lines 150-159). -/
def classifyManipulationLevel (realityScore : ℚ) : String :=
  if realityScore ≥ 67 then "GREEN"
  else if realityScore ≥ 34 then "YELLOW"
  else "RED"

/-- Confidence entry for a single `agentResults` entry, as collected by
`_calculate_overall_confidence`: the Python condition is
`if agent_result and 'confidence' in agent_result`. -/
def entryConfidence (o : Option AgentResult) : Option ℚ :=
  match o with
  | none => none
  | some a => if dictNonempty a then a.confidence else none

/-- The per-agent confidences collected by `_calculate_overall_confidence`
(`score_aggregator_agent.py`, lines 164-170), in the source's fixed agent-type
order. -/
def respondingConfidences (rs : AgentResults) : List ℚ :=
  [rs.botDetector, rs.trendAnalyzer, rs.reviewValidator, rs.paidPromotion].filterMap
    entryConfidence

/-- `_calculate_variance` (`score_aggregator_agent.py`, lines 192-199):
population variance, 0 for fewer than two values. -/
def calcVariance (values : List ℚ) : ℚ :=
  if values.length < 2 then 0
  else
    let mean := values.sum / values.length
    (values.map fun x => (x - mean) ^ 2).sum / values.length

/-- The consistency bonus expression `max(0, 10 - (score_variance / 10))`
from `_calculate_overall_confidence` (line 183). -/
def consistencyBonus (variance : ℚ) : ℚ := max 0 (10 - variance / 10)

/-- `_calculate_overall_confidence` (`score_aggregator_agent.py`,
lines 161-190). -/
def calculateOverallConfidence (rs : AgentResults) (s : AgentScores) : ℚ :=
  let confidences := respondingConfidences rs
  if confidences.isEmpty then 70
  else
    let baseConfidence := confidences.sum / confidences.length
    let scoreValues := [s.bot_detector, s.trend_analyzer, s.review_validator, s.paid_promotion]
    let withConsistency :=
      if 1 < scoreValues.length then
        baseConfidence + consistencyBonus (calcVariance scoreValues)
      else baseConfidence
    let withCountBonus := withConsistency + ((confidences.length : ℚ) - 1) * 2
    max (min withCountBonus 98) 60

/-- The projections of `_aggregate_agent_results`
(`score_aggregator_agent.py`, lines 56-97) studied here: reality score,
zone classification and overall confidence.  The function is total: a missing
agent entry never aborts the aggregation (the narrative evidence bundle and
data-source list it also builds are modelled separately where needed). -/
structure AggregationOutcome where
  reality_score : ℚ
  manipulation_level : String
  confidence : ℚ
  deriving DecidableEq, Repr

/-- The scoring core of `_aggregate_agent_results`. -/
def aggregateAgentResults (rs : AgentResults) : AggregationOutcome :=
  let s := extractAgentScores rs
  let realityScore := calculateRealityScore s
  { reality_score := realityScore
    manipulation_level := classifyManipulationLevel realityScore
    confidence := calculateOverallConfidence rs s }

/-- A bot-detector response dict carrying only `score = 90`. -/
def botResult90 : AgentResult :=
  { score := some 90
    confidence := none
    data_sources := none
    hasOtherKeys := false }

/-- An `agentResults` mapping carrying only a bot-detector entry with
score 90. -/
def botOnly90 : AgentResults :=
  { botDetector := some botResult90
    trendAnalyzer := none
    reviewValidator := none
    paidPromotion := none }

/-- Substring containment over character lists: Python's `pat in s`
membership test on strings. -/
def charsContain (s pat : List Char) : Bool :=
  match s with
  | [] => pat.isEmpty
  | c :: rest => pat.isPrefixOf (c :: rest) || charsContain rest pat

/-- Python's `pat in s` on strings. -/
def containsSubstr (s pat : String) : Bool := charsContain s.data pat.data

/-- Python's `str.lower()`: character-wise lowercasing (the demo queries are
plain ASCII, where this agrees with Python's Unicode lowercasing). -/
def strToLower (s : String) : String := ⟨s.data.map Char.toLower⟩

/-- The standardized response dict built by `create_standard_response`
(`base_agent.py`, lines 309-319); the evidence payload type is agent-specific. -/
structure StdResponse (E : Type) where
  analysisId : String
  score : ℚ
  confidence : ℚ
  evidence : E
  data_sources : List String
  status : String
  deriving DecidableEq, Repr

/-- `create_standard_response` (`base_agent.py`): rounds score and confidence
to two decimals and marks the response `COMPLETE`.  Note that the source
rounds but does not clamp here. -/
def createStandardResponse {E : Type} (analysisId : String) (score confidence : ℚ)
    (evidence : E) (dataSources : List String) : StdResponse E :=
  { analysisId := analysisId
    score := roundTo2 score
    confidence := roundTo2 confidence
    evidence := evidence
    data_sources := dataSources
    status := "COMPLETE" }

/-- `_create_demo_response` (`base_agent.py`, lines 351-377).  The
`random.randint(-2, 2)` draws applied to `bot_percentage` and `reality_score`
when `DEMO_ADD_REALISTIC_VARIANCE` is set are the parameters `j1`, `j2`; the
`random.randint(-5, 5)` draw used for agents other than the bot-detector and
the score-aggregator is `j3`.  `demoEvidence` is the agent-specific
`_get_demo_evidence` hook. -/
def createDemoResponse {E : Type} (agentType : String) (demoEvidence : String → ℤ → ℤ → E)
    (analysisId query : String) (botPercentage realityScore : ℤ)
    (addVariance : Bool) (j1 j2 j3 : ℤ) : StdResponse E :=
  let bp0 := if addVariance then botPercentage + j1 else botPercentage
  let rs0 := if addVariance then realityScore + j2 else realityScore
  let bp := max 0 (min 100 bp0)
  let rs := max 0 (min 100 rs0)
  let score : ℚ :=
    if agentType = "bot-detector" then ((100 - bp : ℤ) : ℚ)
    else if agentType = "score-aggregator" then (rs : ℚ)
    else if addVariance then ((rs + j3 : ℤ) : ℚ)
    else (rs : ℚ)
  createStandardResponse analysisId score DEMO_CONFIDENCE_SCORE
    (demoEvidence query bp rs) ["demo_data", "hardcoded_values"]

/-- `get_hardcoded_demo_response` (`base_agent.py`, lines 321-349): match the
lowercased query against the fixed demo table. -/
def getHardcodedDemoResponse {E : Type} (agentType : String)
    (demoEvidence : String → ℤ → ℤ → E) (query analysisId : String)
    (addVariance : Bool) (j1 j2 j3 : ℤ) : Option (StdResponse E) :=
  let queryLower := strToLower query
  if containsSubstr queryLower "stanley cup" then
    some (createDemoResponse agentType demoEvidence analysisId query
      STANLEY_CUP_BOT_PERCENTAGE STANLEY_CUP_REALITY_SCORE addVariance j1 j2 j3)
  else if containsSubstr queryLower "$buzz" || containsSubstr queryLower "buzz stock" then
    some (createDemoResponse agentType demoEvidence analysisId query
      BUZZ_STOCK_BOT_PERCENTAGE BUZZ_STOCK_REALITY_SCORE addVariance j1 j2 j3)
  else if containsSubstr queryLower "prime energy" then
    some (createDemoResponse agentType demoEvidence analysisId query
      PRIME_ENERGY_BOT_PERCENTAGE PRIME_ENERGY_REALITY_SCORE addVariance j1 j2 j3)
  else none

/-- The dict literal built by `_publish_error_response` (`base_agent.py`,
lines 238-248).  Its fields are exactly the keys of that dict: it has no
`analysisId` field. -/
structure ErrorResponse where
  agent_type : String
  status : String
  error_message : String
  timestamp : String
  score : ℚ
  confidence : ℚ
  deriving DecidableEq, Repr

/-- `_publish_error_response`: status ERROR, neutral score 50, confidence 0. -/
def publishErrorResponsePayload (agentType timestamp errorMessage : String) : ErrorResponse :=
  { agent_type := agentType
    status := "ERROR"
    error_message := errorMessage
    timestamp := timestamp
    score := 50
    confidence := 0 }

/-- The keys of the JSON object serialized from the error-response dict, in
the source's literal order (`base_agent.py`, lines 240-247). -/
def errorResponseJsonKeys : List String :=
  ["agent_type", "status", "error_message", "timestamp", "score", "confidence"]

/-- The mutable base-agent state touched by the message pipeline
(`base_agent.py`). -/
structure AgentState where
  is_running : Bool
  use_fallback : Bool
  processing_count : ℕ
  error_count : ℕ
  deriving DecidableEq, Repr

/-- An inbound message payload: either malformed (JSON decode fails) or a
decoded request. -/
inductive Payload (R : Type) where
  | malformed
  | request (req : R)
  deriving DecidableEq, Repr

/-- A message handed to `_publish_response`: either a successful result
wrapped with the fixed metadata (`agent_type`, `processing_time_ms`,
`timestamp`, `agent_version`) or an error response. -/
inductive PublishedMsg (E : Type) where
  | success (result : StdResponse E) (agentType : String) (processingTimeMs : ℕ)
      (timestamp agentVersion : String)
  | errorResp (e : ErrorResponse)
  deriving DecidableEq, Repr

/-- `_process_message` (`base_agent.py`, lines 189-217): decode, dispatch to
the agent-specific handler, publish result or error response, update
counters.  The decoded-request type `R` and a handler returning `Except`
model `process_analysis_request` and the exceptions it may raise.  The
`List (PublishedMsg E)` component is the messages handed to
`_publish_response`; that call's own topic-lookup failure in the shipped
source is modelled separately by `getResponseTopic`/`publishResponse`, which
also makes the success branch's `processing_count` increment (line 208,
after the publish call) unreachable as shipped. -/
def processMessage {R E : Type} (agentType timestamp agentVersion : String)
    (processingTimeMs : ℕ) (st : AgentState)
    (handler : R → Except String (StdResponse E)) (p : Payload R) :
    AgentState × List (PublishedMsg E) :=
  match p with
  | .malformed => ({ st with error_count := st.error_count + 1 }, [])
  | .request req =>
    match handler req with
    | .ok result =>
        ({ st with processing_count := st.processing_count + 1 },
          [.success result agentType processingTimeMs timestamp agentVersion])
    | .error msg =>
        ({ st with error_count := st.error_count + 1 },
          [.errorResp (publishErrorResponsePayload agentType timestamp msg)])

/-- Where one published message was delivered. -/
inductive Delivery where
  | solaceBroker (topic payload : String)
  | fallbackBus (topic payload : String)
  deriving DecidableEq, Repr

/-- The class attributes `Config` actually defines (`config.py`, in source
order; the last three are its classmethods).  Note that no
`*_REQUEST_TOPIC` or `*_RESPONSE_TOPIC` name appears: the topic strings live
only inside the `TOPICS` dict value. -/
def configAttrNames : List String :=
  ["SOLACE_HOST", "SOLACE_VPN", "SOLACE_USERNAME", "SOLACE_PASSWORD",
    "SOLACE_CLIENT_NAME_PREFIX", "PYTHON_LOG_LEVEL", "USE_MOCK_DATA", "DEMO_MODE",
    "AGENT_TIMEOUT_SECONDS", "AGENT_MAX_RETRIES", "AGENT_RETRY_DELAY_SECONDS",
    "AGENT_HEARTBEAT_INTERVAL", "MAX_CONCURRENT_ANALYSES", "AGENT_WORKER_THREADS",
    "MESSAGE_BATCH_SIZE", "REDDIT_CLIENT_ID", "REDDIT_CLIENT_SECRET",
    "REDDIT_USER_AGENT", "YOUTUBE_API_KEY", "NEWSAPI_KEY", "TWITTER_BEARER_TOKEN",
    "BOT_DETECTOR_ENABLED", "BOT_DETECTOR_MIN_CONFIDENCE", "BOT_DETECTOR_SAMPLE_SIZE",
    "BOT_DETECTOR_USE_TWITTER_API", "BOT_DETECTOR_USE_REDDIT_API",
    "TREND_ANALYZER_ENABLED", "TREND_ANALYZER_TIME_WINDOW_HOURS",
    "TREND_ANALYZER_SPIKE_THRESHOLD", "TREND_ANALYZER_USE_GOOGLE_TRENDS",
    "TREND_ANALYZER_USE_NEWS_API", "REVIEW_VALIDATOR_ENABLED",
    "REVIEW_VALIDATOR_MIN_REVIEWS", "REVIEW_VALIDATOR_TEMPLATE_THRESHOLD",
    "REVIEW_VALIDATOR_USE_SCRAPING", "REVIEW_VALIDATOR_USE_REVIEWMETA",
    "PAID_PROMOTION_ENABLED", "PAID_PROMOTION_KEYWORD_THRESHOLD",
    "PAID_PROMOTION_USE_YOUTUBE_API", "PAID_PROMOTION_FTC_COMPLIANCE_CHECK",
    "SCORE_AGGREGATOR_ENABLED", "SCORE_AGGREGATOR_BOT_WEIGHT",
    "SCORE_AGGREGATOR_TREND_WEIGHT", "SCORE_AGGREGATOR_REVIEW_WEIGHT",
    "SCORE_AGGREGATOR_PROMOTION_WEIGHT", "STANLEY_CUP_BOT_PERCENTAGE",
    "STANLEY_CUP_REALITY_SCORE", "BUZZ_STOCK_BOT_PERCENTAGE",
    "BUZZ_STOCK_REALITY_SCORE", "PRIME_ENERGY_BOT_PERCENTAGE",
    "PRIME_ENERGY_REALITY_SCORE", "DEMO_RESPONSE_DELAY_MS",
    "DEMO_ADD_REALISTIC_VARIANCE", "DEMO_CONFIDENCE_SCORE", "LOG_FORMAT",
    "ENABLE_CONSOLE_LOGGING", "CONTINUE_ON_AGENT_FAILURE",
    "FALLBACK_TO_MOCK_ON_ERROR", "TOPICS", "get_topic", "validate_config",
    "get_solace_connection_params"]

/-- The five `Config` attribute names read eagerly by the dict literal of
`_get_response_topic` (`base_agent.py`, lines 163-168), in evaluation
order. -/
def responseTopicAttrNames : List String :=
  ["BOT_DETECTOR_RESPONSE_TOPIC", "TREND_ANALYZER_RESPONSE_TOPIC",
    "REVIEW_VALIDATOR_RESPONSE_TOPIC", "PAID_PROMOTION_RESPONSE_TOPIC",
    "SCORE_AGGREGATOR_RESPONSE_TOPIC"]

/-- `_get_response_topic` (`base_agent.py`, lines 161-170): the dict literal
evaluates its five attribute reads eagerly before any lookup, and reading an
attribute `Config` does not define raises `AttributeError` (modelled by
`Except.error`).  The `.ok` branch is the `topic_map.get(agent_type,
default)` lookup that would run if all five attributes existed; since
`Config` defines none of them (see `configAttrNames`), that branch is
unreachable in the shipped source and only the f-string default it would
fall back to can be written down. -/
def getResponseTopic (agentType : String) : Except String String :=
  match responseTopicAttrNames.find? (fun n => !(configAttrNames.contains n)) with
  | some missingAttr => .error ("AttributeError: " ++ missingAttr)
  | none => .ok ("signalzero/agent/" ++ agentType ++ "/response")

/-- `_publish_response` (`base_agent.py`, lines 219-236): first compute
`response_topic = self._get_response_topic()` (line 221) — which in the
shipped source raises, see `getResponseTopic` — then deliver: broker when
not in fallback mode with a publisher, degrading a raising broker publish to
the in-process fallback bus.  `hasPublisher` models `self.publisher` being
non-None after a successful connect and `solacePublishRaises` models the
`publisher.publish` call raising. -/
def publishResponse (st : AgentState) (agentType : String)
    (hasPublisher : Bool) (solacePublishRaises : Bool) (payload : String) :
    Except String (AgentState × Delivery) :=
  match getResponseTopic agentType with
  | .error e => .error e
  | .ok topic =>
    if !st.use_fallback && hasPublisher then
      if solacePublishRaises then .ok (st, .fallbackBus topic payload)
      else .ok (st, .solaceBroker topic payload)
    else .ok (st, .fallbackBus topic payload)

/-- The decoded score-aggregator request payload
(`{analysisId, query, agentResults}`). -/
structure RequestData where
  analysisId : String
  query : String
  agentResults : AgentResults
  deriving DecidableEq, Repr

/-- The concrete request used to exhibit the missing-`analysisId` bug. -/
def c4Request : RequestData :=
  { analysisId := "a-123"
    query := "some query"
    agentResults := ⟨none, none, none, none⟩ }

/-- The bot-detector's demo short-circuit (`get_hardcoded_demo_response`
invoked with `agent_type = 'bot-detector'`); the agent-specific demo evidence
dict is irrelevant to the score/confidence properties studied here and is
modelled as `Unit`. -/
def botDetectorDemoResponse (query analysisId : String) (addVariance : Bool)
    (j1 j2 j3 : ℤ) : Option (StdResponse Unit) :=
  getHardcodedDemoResponse "bot-detector" (fun _ _ _ => ()) query analysisId
    addVariance j1 j2 j3

/-- The three default demo (bot-percentage, reality-score) pairs
(`config.py` defaults). -/
def defaultDemoEntries : List (ℤ × ℤ) :=
  [(STANLEY_CUP_BOT_PERCENTAGE, STANLEY_CUP_REALITY_SCORE),
    (BUZZ_STOCK_BOT_PERCENTAGE, BUZZ_STOCK_REALITY_SCORE),
    (PRIME_ENERGY_BOT_PERCENTAGE, PRIME_ENERGY_REALITY_SCORE)]

/-- Both numeric fields of a response lie in `[0, 100]`. -/
def fieldsWithin0100 {E : Type} (r : StdResponse E) : Prop :=
  0 ≤ r.score ∧ r.score ≤ 100 ∧ 0 ≤ r.confidence ∧ r.confidence ≤ 100

/-- Final clamp of `_calculate_organic_score` (`trend_analysis_agent.py`,
line 379): `max(min(organic_score, 95), 5)`.  The pre-clamp accumulator is
synthesized from randomized evidence (outside the aggregation core) and is
taken as the parameter. -/
def trendOrganicScoreFinal (raw : ℚ) : ℚ := max (min raw 95) 5

/-- Final clamp of `_calculate_authenticity_score`
(`review_validator_agent.py`, line 478): `max(min(authenticity, 95), 5)`. -/
def reviewAuthenticityScoreFinal (raw : ℚ) : ℚ := max (min raw 95) 5

/-- Final clamp of `_calculate_transparency_score`
(`paid_promotion_agent.py`, line 548): `max(min(transparency, 95), 5)`. -/
def promotionTransparencyScoreFinal (raw : ℚ) : ℚ := max (min raw 95) 5

/-- Final clamp of the trend/review/promotion agents' confidence
computation: `max(min(confidence, 98), 60)`. -/
def signalAgentConfidenceFinal (raw : ℚ) : ℚ := max (min raw 98) 60

/-- Final clamp of the bot detector's confidence computation
(`bot_detection_agent.py`, line 235): `min(max(confidence, 60), 98)`. -/
def botConfidenceFinal (raw : ℚ) : ℚ := min (max raw 60) 98

/-- `_calculate_bot_percentage`'s final cap (`bot_detection_agent.py`,
line 207): `min(total_score, 95)`; the weighted accumulator `total_score` is
a sum of non-negative weighted indicator scores, so `0 ≤ total` where this is
used. -/
def botPercentageCapped (total : ℚ) : ℚ := min total 95

/-- The bot detector's normal-path score: `100 - bot_percentage`
(`bot_detection_agent.py`, line 66). -/
def botAuthenticityScore (total : ℚ) : ℚ := 100 - botPercentageCapped total

/-- The demo-response score as a single integer expression (the `score`
assignment of `_create_demo_response` with the clamps of `bot_percentage`
and `reality_score` substituted in). -/
def demoScoreInt (agentType : String) (botPercentage realityScore : ℤ)
    (addVariance : Bool) (j1 j2 j3 : ℤ) : ℤ :=
  if agentType = "bot-detector" then
    100 - max 0 (min 100 (if addVariance then botPercentage + j1 else botPercentage))
  else if agentType = "score-aggregator" then
    max 0 (min 100 (if addVariance then realityScore + j2 else realityScore))
  else if addVariance then
    max 0 (min 100 (if addVariance then realityScore + j2 else realityScore)) + j3
  else
    max 0 (min 100 (if addVariance then realityScore + j2 else realityScore))

/-- The numeric content of the score-aggregator's `_get_demo_evidence` dict
(`score_aggregator_agent.py`, lines 492-539); the constant narrative strings
(key findings, methodology, confidence factors) carry no data beyond `bp` and
`rs` and are elided. -/
structure AggDemoEvidence where
  final_reality_score : ℤ
  manipulation_level : String
  bot_detection : ℤ
  trend_analysis : ℤ
  review_validation : ℤ
  paid_promotion : ℤ
  bot_detection_weighted : ℚ
  trend_analysis_weighted : ℚ
  review_validation_weighted : ℚ
  paid_promotion_weighted : ℚ
  deriving DecidableEq, Repr

/-- `_get_demo_evidence` of the score aggregator.  `e1`, `e2`, `e3` model the
`random.randint(-10, 10)`, `(-15, 15)` and `(-20, 20)` draws — note the
source performs these draws unconditionally, independent of
`DEMO_ADD_REALISTIC_VARIANCE`. -/
def scoreAggregatorDemoEvidence (e1 e2 e3 : ℤ) (_query : String) (bp rs : ℤ) :
    AggDemoEvidence :=
  let botScore := 100 - bp
  let trendScore := max (min (rs + e1) 100) 0
  let reviewScore := max (min (rs + e2) 100) 0
  let promotionScore := max (min (rs + e3) 100) 0
  { final_reality_score := rs
    manipulation_level := if rs < 34 then "RED" else if rs < 67 then "YELLOW" else "GREEN"
    bot_detection := botScore
    trend_analysis := trendScore
    review_validation := reviewScore
    paid_promotion := promotionScore
    bot_detection_weighted := roundTo1 ((botScore : ℚ) * 0.4)
    trend_analysis_weighted := roundTo1 ((trendScore : ℚ) * 0.3)
    review_validation_weighted := roundTo1 ((reviewScore : ℚ) * 0.2)
    paid_promotion_weighted := roundTo1 ((promotionScore : ℚ) * 0.1) }

/-- The evidence payload of a score-aggregator response: either the demo
evidence dict or the full aggregation evidence, represented by its scoring
projections (reality score, zone, per-agent scores). -/
inductive AggEvidence where
  | demo (d : AggDemoEvidence)
  | full (reality_score : ℚ) (manipulation_level : String) (agent_scores : AgentScores)
  deriving DecidableEq, Repr

/-- `_combine_data_sources` (`score_aggregator_agent.py`, lines 318-331):
sorted union of the reporting agents' data sources plus two
aggregation-specific entries (Python `sorted(set(...))` equals the sorted
duplicate-free list). -/
def combineDataSources (rs : AgentResults) : List String :=
  ((([rs.botDetector, rs.trendAnalyzer, rs.reviewValidator, rs.paidPromotion].foldl
      (fun acc o =>
        match o with
        | some a => acc ++ a.data_sources.getD []
        | none => acc) []) ++
    ["multi_agent_aggregation", "weighted_scoring_algorithm"]).dedup).mergeSort
    (fun a b => decide (a ≤ b))

/-- `process_analysis_request` of the score aggregator
(`score_aggregator_agent.py`, lines 27-54): demo short-circuit first,
otherwise aggregate the agent results.  `j1`-`j3` are the
`_create_demo_response` draws, `e1`-`e3` the `_get_demo_evidence` draws. -/
def processAnalysisRequestAgg (req : RequestData) (addVariance : Bool)
    (j1 j2 j3 e1 e2 e3 : ℤ) : StdResponse AggEvidence :=
  match getHardcodedDemoResponse "score-aggregator"
      (fun q bp rs => AggEvidence.demo (scoreAggregatorDemoEvidence e1 e2 e3 q bp rs))
      req.query req.analysisId addVariance j1 j2 j3 with
  | some demoResponse => demoResponse
  | none =>
    let s := extractAgentScores req.agentResults
    let realityScore := calculateRealityScore s
    createStandardResponse req.analysisId realityScore
      (calculateOverallConfidence req.agentResults s)
      (AggEvidence.full realityScore (classifyManipulationLevel realityScore) s)
      (combineDataSources req.agentResults)

/-- The demo-table match condition of `get_hardcoded_demo_response`. -/
def isDemoQuery (query : String) : Bool :=
  containsSubstr (strToLower query) "stanley cup" ||
    (containsSubstr (strToLower query) "$buzz" ||
      containsSubstr (strToLower query) "buzz stock") ||
    containsSubstr (strToLower query) "prime energy"

/-- The score-aggregator demo branch as a function of query, id and draws
only (no `agentResults` argument at all). -/
def demoBranch (query analysisId : String) (addVariance : Bool)
    (j1 j2 j3 e1 e2 e3 : ℤ) : StdResponse AggEvidence :=
  if containsSubstr (strToLower query) "stanley cup" then
    createDemoResponse "score-aggregator"
      (fun q bp rs => AggEvidence.demo (scoreAggregatorDemoEvidence e1 e2 e3 q bp rs))
      analysisId query STANLEY_CUP_BOT_PERCENTAGE STANLEY_CUP_REALITY_SCORE
      addVariance j1 j2 j3
  else if containsSubstr (strToLower query) "$buzz" ||
      containsSubstr (strToLower query) "buzz stock" then
    createDemoResponse "score-aggregator"
      (fun q bp rs => AggEvidence.demo (scoreAggregatorDemoEvidence e1 e2 e3 q bp rs))
      analysisId query BUZZ_STOCK_BOT_PERCENTAGE BUZZ_STOCK_REALITY_SCORE
      addVariance j1 j2 j3
  else
    createDemoResponse "score-aggregator"
      (fun q bp rs => AggEvidence.demo (scoreAggregatorDemoEvidence e1 e2 e3 q bp rs))
      analysisId query PRIME_ENERGY_BOT_PERCENTAGE PRIME_ENERGY_REALITY_SCORE
      addVariance j1 j2 j3

/-- Projection extracting the synthesized trend score from demo evidence. -/
def demoTrendAnalysis : AggEvidence → ℤ
  | .demo d => d.trend_analysis
  | .full _ _ _ => 0

/-- A score-aggregator demo request with no agent results attached. -/
def demoReqA : RequestData :=
  { analysisId := "a-42"
    query := "stanley cup"
    agentResults := ⟨none, none, none, none⟩ }

/-- Score extraction evaluated on `botOnly90`. -/
theorem extractAgentScores_botOnly90 :
    extractAgentScores botOnly90 = ⟨90, 50, 50, 50⟩ := rfl

/-- The weighted reality score of `botOnly90`:
`90*0.4 + 50*0.3 + 50*0.2 + 50*0.1 = 66`. -/
theorem realityScore_botOnly90 :
    calculateRealityScore (extractAgentScores botOnly90) = 66 := by
  have h : calculateRealityScore (extractAgentScores botOnly90) =
      max (min ((90 : ℚ) * 0.40 + 50 * 0.30 + 50 * 0.20 + 50 * 0.10) 100) 0 := rfl
  rw [h, show ((90 : ℚ) * 0.40 + 50 * 0.30 + 50 * 0.20 + 50 * 0.10) = 66 from by norm_num,
    min_eq_left (by norm_num : (66 : ℚ) ≤ 100), max_eq_left (by norm_num : (0 : ℚ) ≤ 66)]

/-- The zone classification of `botOnly90`'s reality score. -/
theorem level_botOnly90 :
    classifyManipulationLevel (calculateRealityScore (extractAgentScores botOnly90)) =
      "YELLOW" := by
  rw [realityScore_botOnly90]
  unfold classifyManipulationLevel
  norm_num

/-- C1: for every score quadruple `(b, t, r, p)` with each component in
`[0, 100]`, the aggregator's reality score equals
`0.4*b + 0.3*t + 0.2*r + 0.1*p` with the canonical default weights
`0.40/0.30/0.20/0.10`, and the result is always within `[0, 100]`. -/
theorem realityScore_weighted_formula (b t r p : ℚ)
    (hb0 : 0 ≤ b) (hb1 : b ≤ 100) (ht0 : 0 ≤ t) (ht1 : t ≤ 100)
    (hr0 : 0 ≤ r) (hr1 : r ≤ 100) (hp0 : 0 ≤ p) (hp1 : p ≤ 100) :
    calculateRealityScore ⟨b, t, r, p⟩ = 0.4 * b + 0.3 * t + 0.2 * r + 0.1 * p ∧
    SCORE_AGGREGATOR_BOT_WEIGHT = 0.40 ∧ SCORE_AGGREGATOR_TREND_WEIGHT = 0.30 ∧
    SCORE_AGGREGATOR_REVIEW_WEIGHT = 0.20 ∧ SCORE_AGGREGATOR_PROMOTION_WEIGHT = 0.10 ∧
    0 ≤ calculateRealityScore ⟨b, t, r, p⟩ ∧ calculateRealityScore ⟨b, t, r, p⟩ ≤ 100 := by
  have hsum : calculateRealityScore ⟨b, t, r, p⟩ =
      0.4 * b + 0.3 * t + 0.2 * r + 0.1 * p := by
    unfold calculateRealityScore SCORE_AGGREGATOR_BOT_WEIGHT SCORE_AGGREGATOR_TREND_WEIGHT
      SCORE_AGGREGATOR_REVIEW_WEIGHT SCORE_AGGREGATOR_PROMOTION_WEIGHT
    rw [min_eq_left (by norm_num; linarith), max_eq_left (by norm_num; positivity)]
    ring
  refine ⟨hsum, rfl, rfl, rfl, rfl, ?_, ?_⟩ <;> rw [hsum] <;> linarith

/-- Witness for `realityScore_weighted_formula` at `(80, 60, 40, 20)`. -/
theorem realityScore_weighted_formula_witness :
    calculateRealityScore ⟨80, 60, 40, 20⟩ = 0.4 * 80 + 0.3 * 60 + 0.2 * 40 + 0.1 * 20 ∧
    0 ≤ calculateRealityScore ⟨80, 60, 40, 20⟩ ∧ calculateRealityScore ⟨80, 60, 40, 20⟩ ≤ 100 := by
  have h := realityScore_weighted_formula 80 60 40 20 (by norm_num) (by norm_num)
    (by norm_num) (by norm_num) (by norm_num) (by norm_num) (by norm_num) (by norm_num)
  exact ⟨h.1, h.2.2.2.2.2⟩

/-- C2: the zone classification returns GREEN iff the reality score is at
least 67, YELLOW iff it is in `[34, 67)`, and RED iff it is below 34; in
particular `67 ↦ GREEN`, `66.99 ↦ YELLOW`, `34 ↦ YELLOW`, `33.99 ↦ RED`. -/
theorem manipulation_zone_boundaries :
    (∀ x : ℚ, (classifyManipulationLevel x = "GREEN" ↔ 67 ≤ x) ∧
      (classifyManipulationLevel x = "YELLOW" ↔ 34 ≤ x ∧ x < 67) ∧
      (classifyManipulationLevel x = "RED" ↔ x < 34)) ∧
    classifyManipulationLevel 67 = "GREEN" ∧
    classifyManipulationLevel 66.99 = "YELLOW" ∧
    classifyManipulationLevel 34 = "YELLOW" ∧
    classifyManipulationLevel 33.99 = "RED" := by
  refine ⟨fun x => ?_, ?_, ?_, ?_, ?_⟩
  · unfold classifyManipulationLevel
    split_ifs with h1 h2
    · exact ⟨iff_of_true rfl h1,
        iff_of_false (by decide) (fun h => absurd h1 (not_le.mpr h.2)),
        iff_of_false (by decide) (fun h => absurd h1 (not_le.mpr (by linarith)))⟩
    · exact ⟨iff_of_false (by decide) h1,
        iff_of_true rfl ⟨h2, not_le.mp h1⟩,
        iff_of_false (by decide) (not_lt.mpr h2)⟩
    · exact ⟨iff_of_false (by decide) h1,
        iff_of_false (by decide) (fun h => h2 h.1),
        iff_of_true rfl (not_le.mp h2)⟩
  · unfold classifyManipulationLevel
    norm_num
  · unfold classifyManipulationLevel
    norm_num
  · unfold classifyManipulationLevel
    norm_num
  · unfold classifyManipulationLevel
    norm_num

/-- C3: aggregation is total over arbitrary `agentResults` mappings (the
embedding is a plain Lean function, mirroring that the source substitutes
defaults instead of raising); every absent or empty agent entry is substituted
with the neutral score 50 before weighting; and aggregating with only
`bot-detector = 90` present yields reality score 66, classified YELLOW. -/
theorem missing_agent_neutral_substitution :
    (∀ o : Option AgentResult,
      o = none ∨ (∃ a, o = some a ∧ dictNonempty a = false) → entryScore o = 50) ∧
    (aggregateAgentResults botOnly90).reality_score = 66 ∧
    (aggregateAgentResults botOnly90).manipulation_level = "YELLOW" := by
  refine ⟨?_, realityScore_botOnly90, level_botOnly90⟩
  rintro o (rfl | ⟨a, rfl, ha⟩)
  · rfl
  · simp [entryScore, ha]

/-- Witness for `missing_agent_neutral_substitution`: the substitution rule
evaluated at an absent entry and at an empty dict. -/
theorem missing_agent_neutral_substitution_witness :
    entryScore none = 50 ∧
    entryScore (some ⟨none, none, none, false⟩) = 50 :=
  ⟨missing_agent_neutral_substitution.1 none (Or.inl rfl),
   missing_agent_neutral_substitution.1 _ (Or.inr ⟨_, rfl, rfl⟩)⟩

/-- Unfolding equation for `calculateOverallConfidence` (the score-values list
built from an `AgentScores` dict always has four entries, so the
`len(score_values) > 1` guard in the source is resolved). -/
theorem calculateOverallConfidence_eq (rs : AgentResults) (s : AgentScores) :
    calculateOverallConfidence rs s =
      if (respondingConfidences rs).isEmpty then 70
      else
        max (min ((respondingConfidences rs).sum / ((respondingConfidences rs).length : ℚ) +
          consistencyBonus (calcVariance
            [s.bot_detector, s.trend_analyzer, s.review_validator, s.paid_promotion]) +
          (((respondingConfidences rs).length : ℚ) - 1) * 2) 98) 60 := rfl

/-- C7: the aggregator's overall confidence is the average of the confidences
of agents that actually responded, plus a consistency bonus that is antitone
in the score variance and `+2` per responding agent beyond the first, clamped
to `[60, 98]`; the no-responder default 70 also lies in `[60, 98]`. -/
theorem overall_confidence_formula :
    (∀ rs s, 60 ≤ calculateOverallConfidence rs s ∧ calculateOverallConfidence rs s ≤ 98) ∧
    (∀ rs s, respondingConfidences rs = [] → calculateOverallConfidence rs s = 70) ∧
    (∀ v₁ v₂ : ℚ, v₁ ≤ v₂ → consistencyBonus v₂ ≤ consistencyBonus v₁) ∧
    (∀ rs s, respondingConfidences rs ≠ [] →
      calculateOverallConfidence rs s =
        max (min ((respondingConfidences rs).sum / ((respondingConfidences rs).length : ℚ) +
          consistencyBonus (calcVariance
            [s.bot_detector, s.trend_analyzer, s.review_validator, s.paid_promotion]) +
          (((respondingConfidences rs).length : ℚ) - 1) * 2) 98) 60) := by
  refine ⟨fun rs s => ?_, fun rs s h => ?_, fun v₁ v₂ h => ?_, fun rs s h => ?_⟩
  · rw [calculateOverallConfidence_eq]
    split_ifs
    · norm_num
    · exact ⟨le_max_right _ _, max_le (min_le_right _ _) (by norm_num)⟩
  · rw [calculateOverallConfidence_eq, if_pos (List.isEmpty_iff.mpr h)]
  · unfold consistencyBonus
    exact max_le_max le_rfl (by linarith)
  · rw [calculateOverallConfidence_eq,
      if_neg (by simp [List.isEmpty_iff, h])]

/-- Witness for `overall_confidence_formula`: the no-responder default and the
antitone consistency bonus at concrete inputs. -/
theorem overall_confidence_formula_witness :
    calculateOverallConfidence ⟨none, none, none, none⟩ ⟨50, 50, 50, 50⟩ = 70 ∧
    consistencyBonus 20 ≤ consistencyBonus 10 :=
  ⟨overall_confidence_formula.2.1 _ _ rfl,
   overall_confidence_formula.2.2.1 10 20 (by norm_num)⟩

/-- `round` on `ℚ` is monotone. -/
theorem round_monotone_rat {x y : ℚ} (h : x ≤ y) : round x ≤ round y := by
  rw [round_eq, round_eq]
  exact Int.floor_le_floor (by linarith)

/-- `roundTo2` fixes integers. -/
theorem roundTo2_intCast (n : ℤ) : roundTo2 ((n : ℤ) : ℚ) = n := by
  unfold roundTo2
  rw [show ((n : ℚ) * 100) = ((100 * n : ℤ) : ℚ) by push_cast; ring, round_intCast]
  push_cast
  field_simp

/-- `roundTo2` keeps values inside `[0, 100]`. -/
theorem roundTo2_bounds {x : ℚ} (h0 : 0 ≤ x) (h1 : x ≤ 100) :
    0 ≤ roundTo2 x ∧ roundTo2 x ≤ 100 := by
  unfold roundTo2
  have hlo : (0 : ℤ) ≤ round (x * 100) := by
    have h := round_monotone_rat (show (0 : ℚ) ≤ x * 100 by nlinarith)
    simpa using h
  have hhi : round (x * 100) ≤ 10000 := by
    have h := round_monotone_rat (show x * 100 ≤ ((10000 : ℤ) : ℚ) by push_cast; linarith)
    simpa [round_intCast] using h
  constructor
  · exact div_nonneg (by exact_mod_cast hlo) (by norm_num)
  · rw [div_le_iff₀ (by norm_num : (0 : ℚ) < 100)]
    calc ((round (x * 100) : ℤ) : ℚ) ≤ ((10000 : ℤ) : ℚ) := by exact_mod_cast hhi
    _ = 100 * 100 := by norm_num

/-- C8: a payload that fails to decode as JSON increments the error counter
and publishes no response at all; processing count, fallback mode and running
flag are unchanged. -/
theorem malformed_payload_dropped {R E : Type} (agentType timestamp agentVersion : String)
    (processingTimeMs : ℕ) (st : AgentState)
    (handler : R → Except String (StdResponse E)) :
    processMessage agentType timestamp agentVersion processingTimeMs st handler .malformed =
      ({ st with error_count := st.error_count + 1 }, []) ∧
    (processMessage agentType timestamp agentVersion processingTimeMs st handler
      (.malformed)).1.processing_count = st.processing_count ∧
    (processMessage agentType timestamp agentVersion processingTimeMs st handler
      (.malformed)).1.use_fallback = st.use_fallback ∧
    (processMessage agentType timestamp agentVersion processingTimeMs st handler
      (.malformed)).1.is_running = st.is_running :=
  ⟨rfl, rfl, rfl, rfl⟩

/-- C4 (code bug): when the payload decodes but the agent-specific processing
raises, the runtime publishes an error response with status ERROR, score 50
and confidence 0 — but the dict built by `_publish_error_response` has no
`analysisId` key at all, so the published response cannot carry the
`analysisId` of the original request (here `"a-123"`), contrary to the spec's
invariant that every response carries its request's `analysisId`. -/
theorem error_response_missing_analysisId :
    processMessage (R := RequestData) (E := Unit) "bot-detector"
        "2025-01-01T00:00:00+00:00" "1.0.0" 0 ⟨true, true, 0, 0⟩
        (fun _ => .error "boom") (.request c4Request) =
      (⟨true, true, 0, 1⟩,
        [.errorResp (publishErrorResponsePayload "bot-detector"
          "2025-01-01T00:00:00+00:00" "boom")]) ∧
    "analysisId" ∉ errorResponseJsonKeys ∧
    (publishErrorResponsePayload "bot-detector"
      "2025-01-01T00:00:00+00:00" "boom").status = "ERROR" ∧
    (publishErrorResponsePayload "bot-detector"
      "2025-01-01T00:00:00+00:00" "boom").score = 50 ∧
    (publishErrorResponsePayload "bot-detector"
      "2025-01-01T00:00:00+00:00" "boom").confidence = 0 :=
  ⟨rfl, by decide, rfl, rfl, rfl⟩

/-- The topic lookup raises for every agent type: the first attribute read
of the dict literal, `Config.BOT_DETECTOR_RESPONSE_TOPIC`, is undefined. -/
theorem getResponseTopic_raises (agentType : String) :
    getResponseTopic agentType =
      Except.error "AttributeError: BOT_DETECTOR_RESPONSE_TOPIC" := rfl

/-- C9 (code bug): the single-publish degrade to the fallback bus that
`_publish_response` implements at lines 224-236 — and that the claim
describes — is unreachable in the shipped source: the function's first step
`_get_response_topic()` (line 221) reads five `*_RESPONSE_TOPIC` attributes
that `Config` does not define (its topic strings live only in the `TOPICS`
dict), so every publish raises `AttributeError` before any broker attempt,
for every agent type, state, connect outcome and payload. -/
theorem publish_raises_before_broker_attempt :
    (∀ agentType : String, getResponseTopic agentType =
      Except.error "AttributeError: BOT_DETECTOR_RESPONSE_TOPIC") ∧
    (∀ (st : AgentState) (agentType : String)
      (hasPublisher solacePublishRaises : Bool) (payload : String),
      publishResponse st agentType hasPublisher solacePublishRaises payload =
        Except.error "AttributeError: BOT_DETECTOR_RESPONSE_TOPIC") := by
  refine ⟨fun agentType => getResponseTopic_raises agentType, ?_⟩
  intro st agentType hasPublisher solacePublishRaises payload
  unfold publishResponse
  rw [getResponseTopic_raises]

/-- Unfolding equation for the `score` field of a demo response. -/
theorem createDemoResponse_score {E : Type} (agentType : String)
    (demoEvidence : String → ℤ → ℤ → E) (analysisId query : String)
    (botPercentage realityScore : ℤ) (addVariance : Bool) (j1 j2 j3 : ℤ) :
    (createDemoResponse agentType demoEvidence analysisId query botPercentage
        realityScore addVariance j1 j2 j3).score =
      roundTo2
        (if agentType = "bot-detector" then
          ((100 - max 0 (min 100 (if addVariance then botPercentage + j1 else botPercentage)) :
            ℤ) : ℚ)
        else if agentType = "score-aggregator" then
          ((max 0 (min 100 (if addVariance then realityScore + j2 else realityScore)) : ℤ) : ℚ)
        else if addVariance then
          ((max 0 (min 100 (if addVariance then realityScore + j2 else realityScore)) + j3 :
            ℤ) : ℚ)
        else
          ((max 0 (min 100 (if addVariance then realityScore + j2 else realityScore)) : ℤ) : ℚ)) :=
  rfl

/-- Unfolding equation for the `confidence` field of a demo response. -/
theorem createDemoResponse_confidence {E : Type} (agentType : String)
    (demoEvidence : String → ℤ → ℤ → E) (analysisId query : String)
    (botPercentage realityScore : ℤ) (addVariance : Bool) (j1 j2 j3 : ℤ) :
    (createDemoResponse agentType demoEvidence analysisId query botPercentage
        realityScore addVariance j1 j2 j3).confidence = roundTo2 DEMO_CONFIDENCE_SCORE :=
  rfl

/-- C6: for a query matching the Stanley Cup demo entry, the bot-detector's
demo short-circuit returns score `100 - STANLEY_CUP_BOT_PERCENTAGE` shifted
by exactly the variance draw `j1 ∈ [-2, 2]` (so within ±2 of `100 - 62`),
and exactly `100 - 62 = 38` when variance is disabled.  The response is a
pure function of configuration constants and the draw, hence identical on
every invocation and unaffected by agent process restarts. -/
theorem stanley_cup_demo_determinism (query analysisId : String) (j1 j2 j3 : ℤ)
    (hq : containsSubstr (strToLower query) "stanley cup" = true)
    (hj1 : -2 ≤ j1) (hj2 : j1 ≤ 2) :
    (∃ r, botDetectorDemoResponse query analysisId true j1 j2 j3 = some r ∧
      r.score = ((100 - (STANLEY_CUP_BOT_PERCENTAGE + j1) : ℤ) : ℚ) ∧
      |r.score - ((100 - STANLEY_CUP_BOT_PERCENTAGE : ℤ) : ℚ)| ≤ 2) ∧
    (∃ r, botDetectorDemoResponse query analysisId false j1 j2 j3 = some r ∧
      r.score = ((100 - STANLEY_CUP_BOT_PERCENTAGE : ℤ) : ℚ)) := by
  have hclamp : max 0 (min 100 (STANLEY_CUP_BOT_PERCENTAGE + j1)) =
      STANLEY_CUP_BOT_PERCENTAGE + j1 := by
    unfold STANLEY_CUP_BOT_PERCENTAGE
    rw [min_eq_right (by omega), max_eq_right (by omega)]
  have hclamp0 : max 0 (min 100 STANLEY_CUP_BOT_PERCENTAGE) =
      STANLEY_CUP_BOT_PERCENTAGE := by
    unfold STANLEY_CUP_BOT_PERCENTAGE
    rw [min_eq_right (by omega), max_eq_right (by omega)]
  constructor
  · refine ⟨createDemoResponse "bot-detector" (fun _ _ _ => ()) analysisId query
      STANLEY_CUP_BOT_PERCENTAGE STANLEY_CUP_REALITY_SCORE true j1 j2 j3, ?_, ?_, ?_⟩
    · unfold botDetectorDemoResponse getHardcodedDemoResponse
      simp only [hq, if_true]
    · rw [createDemoResponse_score]
      simp only [if_pos rfl, if_true, hclamp]
      exact roundTo2_intCast _
    · rw [createDemoResponse_score]
      simp only [if_pos rfl, if_true, hclamp]
      rw [roundTo2_intCast]
      have hc1 : ((-2 : ℤ) : ℚ) ≤ (j1 : ℚ) := by exact_mod_cast hj1
      have hc2 : (j1 : ℚ) ≤ ((2 : ℤ) : ℚ) := by exact_mod_cast hj2
      rw [abs_le]
      constructor <;> push_cast at hc1 hc2 ⊢ <;> linarith
  · refine ⟨createDemoResponse "bot-detector" (fun _ _ _ => ()) analysisId query
      STANLEY_CUP_BOT_PERCENTAGE STANLEY_CUP_REALITY_SCORE false j1 j2 j3, ?_, ?_⟩
    · unfold botDetectorDemoResponse getHardcodedDemoResponse
      simp only [hq, if_true]
    · rw [createDemoResponse_score]
      simp only [if_pos rfl, Bool.false_eq_true, if_false, hclamp0]
      exact roundTo2_intCast _

/-- Witness for `stanley_cup_demo_determinism` at a concrete query and draw. -/
theorem stanley_cup_demo_determinism_witness :
    (∃ r, botDetectorDemoResponse "Stanley Cup rumors" "a-1" true 2 0 0 = some r ∧
      r.score = ((100 - (STANLEY_CUP_BOT_PERCENTAGE + 2) : ℤ) : ℚ) ∧
      |r.score - ((100 - STANLEY_CUP_BOT_PERCENTAGE : ℤ) : ℚ)| ≤ 2) ∧
    (∃ r, botDetectorDemoResponse "Stanley Cup rumors" "a-1" false 2 0 0 = some r ∧
      r.score = ((100 - STANLEY_CUP_BOT_PERCENTAGE : ℤ) : ℚ)) :=
  stanley_cup_demo_determinism "Stanley Cup rumors" "a-1" 2 0 0 (by decide)
    (by norm_num) (by norm_num)

/-- The demo-response score is `demoScoreInt`, rounded after casting. -/
theorem createDemoResponse_score_eq {E : Type} (agentType : String)
    (demoEvidence : String → ℤ → ℤ → E) (analysisId query : String)
    (botPercentage realityScore : ℤ) (addVariance : Bool) (j1 j2 j3 : ℤ) :
    (createDemoResponse agentType demoEvidence analysisId query botPercentage
        realityScore addVariance j1 j2 j3).score =
      roundTo2 ((demoScoreInt agentType botPercentage realityScore addVariance j1 j2 j3 :
        ℤ) : ℚ) := by
  rw [createDemoResponse_score]
  unfold demoScoreInt
  split_ifs <;> rfl

/-- For the default demo table and the source's jitter bounds, the
demo-response score stays in `[0, 100]` as an integer. -/
theorem demoScoreInt_bounds (agentType : String) (bp rs : ℤ) (addVariance : Bool)
    (j1 j2 j3 : ℤ) (hmem : (bp, rs) ∈ defaultDemoEntries)
    (h3 : -2 ≤ j2) (h4 : j2 ≤ 2) (h5 : -5 ≤ j3) (h6 : j3 ≤ 5) :
    0 ≤ demoScoreInt agentType bp rs addVariance j1 j2 j3 ∧
      demoScoreInt agentType bp rs addVariance j1 j2 j3 ≤ 100 := by
  simp only [defaultDemoEntries, STANLEY_CUP_BOT_PERCENTAGE, STANLEY_CUP_REALITY_SCORE,
    BUZZ_STOCK_BOT_PERCENTAGE, BUZZ_STOCK_REALITY_SCORE, PRIME_ENERGY_BOT_PERCENTAGE,
    PRIME_ENERGY_REALITY_SCORE, List.mem_cons, List.not_mem_nil, or_false,
    Prod.mk.injEq] at hmem
  unfold demoScoreInt
  split_ifs <;> omega

/-- Clamp expressions of the shape `max (min raw a) b` stay in `[0, 100]`
when `0 ≤ b`, `a ≤ 100` and `b ≤ 100`. -/
theorem maxmin_bounds (raw a b : ℚ) (hb0 : 0 ≤ b) (ha : a ≤ 100) (hb1 : b ≤ 100) :
    0 ≤ max (min raw a) b ∧ max (min raw a) b ≤ 100 :=
  ⟨le_trans hb0 (le_max_right _ _), max_le ((min_le_right _ _).trans ha) hb1⟩

/-- C5: every response an agent produces has score and confidence within
`[0, 100]`: the demo short-circuit (at the default demo table and the
source's jitter bounds `j1, j2 ∈ [-2, 2]`, `j3 ∈ [-5, 5]`), the error
response (`50` / `0`), a standardized response built from in-range values
(`create_standard_response` rounds but does not clamp, so this needs its
inputs in range), the four signal agents' clamped normal-path scores and
confidences, and the aggregator's clamped reality score and confidence. -/
theorem response_fields_within_bounds :
    (∀ (E : Type) (demoEvidence : String → ℤ → ℤ → E)
      (agentType analysisId query : String) (bp rs : ℤ) (addVariance : Bool) (j1 j2 j3 : ℤ),
      (bp, rs) ∈ defaultDemoEntries →
      -2 ≤ j1 → j1 ≤ 2 → -2 ≤ j2 → j2 ≤ 2 → -5 ≤ j3 → j3 ≤ 5 →
      fieldsWithin0100 (createDemoResponse agentType demoEvidence analysisId query
        bp rs addVariance j1 j2 j3)) ∧
    (∀ agentType timestamp msg,
      0 ≤ (publishErrorResponsePayload agentType timestamp msg).score ∧
      (publishErrorResponsePayload agentType timestamp msg).score ≤ 100 ∧
      0 ≤ (publishErrorResponsePayload agentType timestamp msg).confidence ∧
      (publishErrorResponsePayload agentType timestamp msg).confidence ≤ 100) ∧
    (∀ (E : Type) (analysisId : String) (s c : ℚ) (ev : E) (ds : List String),
      0 ≤ s → s ≤ 100 → 0 ≤ c → c ≤ 100 →
      fieldsWithin0100 (createStandardResponse analysisId s c ev ds)) ∧
    (∀ raw : ℚ, 0 ≤ trendOrganicScoreFinal raw ∧ trendOrganicScoreFinal raw ≤ 100 ∧
      0 ≤ reviewAuthenticityScoreFinal raw ∧ reviewAuthenticityScoreFinal raw ≤ 100 ∧
      0 ≤ promotionTransparencyScoreFinal raw ∧ promotionTransparencyScoreFinal raw ≤ 100 ∧
      0 ≤ signalAgentConfidenceFinal raw ∧ signalAgentConfidenceFinal raw ≤ 100 ∧
      0 ≤ botConfidenceFinal raw ∧ botConfidenceFinal raw ≤ 100) ∧
    (∀ total : ℚ, 0 ≤ total →
      0 ≤ botAuthenticityScore total ∧ botAuthenticityScore total ≤ 100) ∧
    (∀ s : AgentScores, 0 ≤ calculateRealityScore s ∧ calculateRealityScore s ≤ 100) ∧
    (∀ rs s, 0 ≤ calculateOverallConfidence rs s ∧ calculateOverallConfidence rs s ≤ 100) := by
  refine ⟨?_, ?_, ?_, ?_, ?_, ?_, ?_⟩
  · intro E demoEvidence agentType analysisId query bp rs addVariance j1 j2 j3
      hmem h1 h2 h3 h4 h5 h6
    have hz := demoScoreInt_bounds agentType bp rs addVariance j1 j2 j3 hmem h3 h4 h5 h6
    have hs := roundTo2_bounds
      (show (0 : ℚ) ≤ ((demoScoreInt agentType bp rs addVariance j1 j2 j3 : ℤ) : ℚ) by
        exact_mod_cast hz.1)
      (show ((demoScoreInt agentType bp rs addVariance j1 j2 j3 : ℤ) : ℚ) ≤ 100 by
        exact_mod_cast hz.2)
    have hc := roundTo2_bounds (x := DEMO_CONFIDENCE_SCORE)
      (by norm_num [DEMO_CONFIDENCE_SCORE]) (by norm_num [DEMO_CONFIDENCE_SCORE])
    unfold fieldsWithin0100
    rw [createDemoResponse_score_eq, createDemoResponse_confidence]
    exact ⟨hs.1, hs.2, hc.1, hc.2⟩
  · intro agentType timestamp msg
    refine ⟨?_, ?_, ?_, ?_⟩ <;> norm_num [publishErrorResponsePayload]
  · intro E analysisId s c ev ds hs0 hs1 hc0 hc1
    have hs := roundTo2_bounds hs0 hs1
    have hc := roundTo2_bounds hc0 hc1
    exact ⟨hs.1, hs.2, hc.1, hc.2⟩
  · intro raw
    obtain ⟨t0, t1⟩ := maxmin_bounds raw 95 5 (by norm_num) (by norm_num) (by norm_num)
    obtain ⟨c0, c1⟩ := maxmin_bounds raw 98 60 (by norm_num) (by norm_num) (by norm_num)
    have b0 : (0 : ℚ) ≤ min (max raw 60) 98 :=
      le_min (le_trans (by norm_num) (le_max_right raw 60)) (by norm_num)
    have b1 : min (max raw 60) 98 ≤ 100 := (min_le_right _ _).trans (by norm_num)
    exact ⟨t0, t1, t0, t1, t0, t1, c0, c1, b0, b1⟩
  · intro total h0
    have hm1 : min total 95 ≤ 95 := min_le_right _ _
    have hm0 : (0 : ℚ) ≤ min total 95 := le_min h0 (by norm_num)
    unfold botAuthenticityScore botPercentageCapped
    constructor <;> linarith
  · intro s
    unfold calculateRealityScore
    exact ⟨le_max_right _ _, max_le (min_le_right _ _) (by norm_num)⟩
  · intro rs s
    rw [calculateOverallConfidence_eq]
    split_ifs
    · norm_num
    · exact ⟨le_trans (by norm_num) (le_max_right _ _),
        max_le ((min_le_right _ _).trans (by norm_num)) (by norm_num)⟩

/-- Witness for `response_fields_within_bounds`: a concrete bot-detector demo
response with jitter draws inside the source's bounds. -/
theorem response_fields_within_bounds_witness :
    fieldsWithin0100 (createDemoResponse "bot-detector" (fun _ _ _ => (() : Unit)) "a-1"
      "stanley cup" STANLEY_CUP_BOT_PERCENTAGE STANLEY_CUP_REALITY_SCORE true 1 (-1) 3) :=
  response_fields_within_bounds.1 Unit _ "bot-detector" "a-1" "stanley cup"
    STANLEY_CUP_BOT_PERCENTAGE STANLEY_CUP_REALITY_SCORE true 1 (-1) 3
    (by simp [defaultDemoEntries]) (by norm_num) (by norm_num) (by norm_num)
    (by norm_num) (by norm_num) (by norm_num)

/-- On a demo query, the aggregator's `process_analysis_request` reduces to
the demo branch, which never reads `agentResults`. -/
theorem processAnalysisRequestAgg_demo (req : RequestData) (addVariance : Bool)
    (j1 j2 j3 e1 e2 e3 : ℤ) (h : isDemoQuery req.query = true) :
    processAnalysisRequestAgg req addVariance j1 j2 j3 e1 e2 e3 =
      demoBranch req.query req.analysisId addVariance j1 j2 j3 e1 e2 e3 := by
  unfold isDemoQuery at h
  unfold processAnalysisRequestAgg getHardcodedDemoResponse demoBranch
  cases hc1 : containsSubstr (strToLower req.query) "stanley cup" with
  | true => simp [hc1]
  | false =>
    cases hc2 : (containsSubstr (strToLower req.query) "$buzz" ||
        containsSubstr (strToLower req.query) "buzz stock") with
    | true => simp [hc1, hc2]
    | false =>
      have hc3 : containsSubstr (strToLower req.query) "prime energy" = true := by
        rw [hc1, hc2] at h
        simpa using h
      simp [hc1, hc2, hc3]

/-- C10 counterexample: two score-aggregator runs on the identical demo
request (same `analysisId`, same query, variance disabled) are not equal
outputs — the demo evidence's per-agent scores are drawn from
`random.randint` unconditionally, so a second invocation with a different
draw (`e1 = 1` instead of `0`) yields a different response. -/
theorem demo_output_not_identical_across_runs :
    processAnalysisRequestAgg demoReqA false 0 0 0 0 0 0 ≠
      processAnalysisRequestAgg demoReqA false 0 0 0 1 0 0 := by
  intro h
  have h2 := congrArg (fun r => demoTrendAnalysis r.evidence) h
  have he1 : demoTrendAnalysis
      (processAnalysisRequestAgg demoReqA false 0 0 0 0 0 0).evidence = 34 := rfl
  have he2 : demoTrendAnalysis
      (processAnalysisRequestAgg demoReqA false 0 0 0 1 0 0).evidence = 35 := rfl
  simp only [he1, he2] at h2
  exact absurd h2 (by norm_num)

/-- C10 (amended): for a demo query the aggregator's response is independent
of the `agentResults` field: with the same random draws, two runs on requests
sharing `analysisId` and query produce identical responses whatever their
`agentResults`; and with variance disabled, the top-level `score`,
`confidence`, `status` and `analysisId` do not depend on the draws at all.
(The full outputs are not draw-independent even with variance disabled: the
demo evidence keeps its unconditional draws — see the counterexample.) -/
theorem demo_query_noninterference (req1 req2 : RequestData) (addVariance : Bool)
    (j1 j2 j3 e1 e2 e3 k1 k2 k3 f1 f2 f3 : ℤ)
    (hid : req1.analysisId = req2.analysisId) (hq : req1.query = req2.query)
    (hdemo : isDemoQuery req1.query = true) :
    processAnalysisRequestAgg req1 addVariance j1 j2 j3 e1 e2 e3 =
      processAnalysisRequestAgg req2 addVariance j1 j2 j3 e1 e2 e3 ∧
    (processAnalysisRequestAgg req1 false j1 j2 j3 e1 e2 e3).score =
      (processAnalysisRequestAgg req2 false k1 k2 k3 f1 f2 f3).score ∧
    (processAnalysisRequestAgg req1 false j1 j2 j3 e1 e2 e3).confidence =
      (processAnalysisRequestAgg req2 false k1 k2 k3 f1 f2 f3).confidence ∧
    (processAnalysisRequestAgg req1 false j1 j2 j3 e1 e2 e3).status =
      (processAnalysisRequestAgg req2 false k1 k2 k3 f1 f2 f3).status ∧
    (processAnalysisRequestAgg req1 false j1 j2 j3 e1 e2 e3).analysisId =
      req1.analysisId := by
  have hdemo2 : isDemoQuery req2.query = true := by rw [← hq]; exact hdemo
  refine ⟨?_, ?_, ?_, ?_, ?_⟩
  · rw [processAnalysisRequestAgg_demo req1 addVariance j1 j2 j3 e1 e2 e3 hdemo,
      processAnalysisRequestAgg_demo req2 addVariance j1 j2 j3 e1 e2 e3 hdemo2,
      ← hq, ← hid]
  · rw [processAnalysisRequestAgg_demo req1 false j1 j2 j3 e1 e2 e3 hdemo,
      processAnalysisRequestAgg_demo req2 false k1 k2 k3 f1 f2 f3 hdemo2, ← hq, ← hid]
    unfold demoBranch
    split_ifs <;> rfl
  · rw [processAnalysisRequestAgg_demo req1 false j1 j2 j3 e1 e2 e3 hdemo,
      processAnalysisRequestAgg_demo req2 false k1 k2 k3 f1 f2 f3 hdemo2, ← hq, ← hid]
    unfold demoBranch
    split_ifs <;> rfl
  · rw [processAnalysisRequestAgg_demo req1 false j1 j2 j3 e1 e2 e3 hdemo,
      processAnalysisRequestAgg_demo req2 false k1 k2 k3 f1 f2 f3 hdemo2, ← hq, ← hid]
    unfold demoBranch
    split_ifs <;> rfl
  · rw [processAnalysisRequestAgg_demo req1 false j1 j2 j3 e1 e2 e3 hdemo]
    unfold demoBranch
    split_ifs <;> rfl

/-- Witness for `demo_query_noninterference`: same demo query, one request
without agent results and one carrying a bot-detector result of 90. -/
theorem demo_query_noninterference_witness :
    processAnalysisRequestAgg ⟨"w-1", "Prime Energy drink", ⟨none, none, none, none⟩⟩
        true 1 2 3 4 5 6 =
      processAnalysisRequestAgg ⟨"w-1", "Prime Energy drink", botOnly90⟩
        true 1 2 3 4 5 6 ∧
    (processAnalysisRequestAgg ⟨"w-1", "Prime Energy drink", ⟨none, none, none, none⟩⟩
        false 1 2 3 4 5 6).score =
      (processAnalysisRequestAgg ⟨"w-1", "Prime Energy drink", botOnly90⟩
        false 7 8 9 10 11 12).score ∧
    (processAnalysisRequestAgg ⟨"w-1", "Prime Energy drink", ⟨none, none, none, none⟩⟩
        false 1 2 3 4 5 6).confidence =
      (processAnalysisRequestAgg ⟨"w-1", "Prime Energy drink", botOnly90⟩
        false 7 8 9 10 11 12).confidence ∧
    (processAnalysisRequestAgg ⟨"w-1", "Prime Energy drink", ⟨none, none, none, none⟩⟩
        false 1 2 3 4 5 6).status =
      (processAnalysisRequestAgg ⟨"w-1", "Prime Energy drink", botOnly90⟩
        false 7 8 9 10 11 12).status ∧
    (processAnalysisRequestAgg ⟨"w-1", "Prime Energy drink", ⟨none, none, none, none⟩⟩
        false 1 2 3 4 5 6).analysisId = "w-1" :=
  demo_query_noninterference ⟨"w-1", "Prime Energy drink", ⟨none, none, none, none⟩⟩
    ⟨"w-1", "Prime Energy drink", botOnly90⟩ true 1 2 3 4 5 6 7 8 9 10 11 12
    rfl rfl (by decide)
